import Mathlib

/-!
Shallow embedding of `backend/services/language_service.py` (a language-learning
helper module) and proofs about it.

The module's functions interact with external services (HTTP translation API,
speech recognizer, text-to-speech, audio players, the filesystem).  Each such
interaction point is modelled by an explicit environment/outcome parameter, and
Python exception handling is modelled with `Except` where the control flow needs
it; a function that (as in the source) catches every exception is total here and
returns a plain value.  Python values that can be any JSON object are modelled
by the `Json` inductive below, and the dynamic semantics of the Python
operations used on them (`in`, `len`, subscripting) are given faithfully,
including the `TypeError`/`KeyError`/`IndexError` cases.
-/

namespace LanguageService

/-- JSON values as decoded by `response.json()`.  An object is a list of
key/value pairs; the decoder of the source produces dicts, so keys are unique
in any object we reason about. -/
inductive Json where
  | null
  | bool (b : Bool)
  | num (n : Int)
  | str (s : String)
  | arr (xs : List Json)
  | obj (kvs : List (String × Json))

/-- Python `key in data` for a decoded JSON value `data`:
membership of the key among a dict's keys, membership of the string among a
list's elements, substring test on a string, and `TypeError` otherwise. -/
def pyContains (data : Json) (key : String) : Except String Bool :=
  match data with
  | .obj kvs => .ok (kvs.lookup key).isSome
  | .arr xs => .ok (xs.any (fun j => match j with | .str s => s == key | _ => false))
  | .str s => .ok (s.data.tails.any (fun t => key.data.isPrefixOf t))
  | .num _ => .error "argument of type 'int' is not iterable"
  | .bool _ => .error "argument of type 'bool' is not iterable"
  | .null => .error "argument of type 'NoneType' is not iterable"

/-- Python `data[key]` with a string key: dict lookup (`KeyError` when absent),
`TypeError` on lists, strings and non-subscriptable values. -/
def pyIndexKey (data : Json) (key : String) : Except String Json :=
  match data with
  | .obj kvs =>
    match kvs.lookup key with
    | some v => .ok v
    | none => .error ("KeyError: " ++ key)
  | .arr _ => .error "list indices must be integers or slices, not str"
  | .str _ => .error "string indices must be integers"
  | _ => .error "object is not subscriptable"

/-- Python `len(data)`: length of a list or string, number of keys of a dict,
`TypeError` otherwise. -/
def pyLen (data : Json) : Except String Nat :=
  match data with
  | .arr xs => .ok xs.length
  | .str s => .ok s.length
  | .obj kvs => .ok kvs.length
  | _ => .error "object has no len()"

/-- Python `data[0]`: first element of a list (`IndexError` when empty), first
character of a string as a one-character string, `KeyError` on a dict whose keys
are strings, `TypeError` otherwise. -/
def pyIndexZero (data : Json) : Except String Json :=
  match data with
  | .arr xs =>
    match xs with
    | x :: _ => .ok x
    | [] => .error "list index out of range"
  | .str s =>
    match s.data with
    | c :: _ => .ok (.str (String.mk [c]))
    | [] => .error "string index out of range"
  | .obj _ => .error "KeyError: 0"
  | _ => .error "object is not subscriptable"

/-- The statically configured credential (`API_KEY` in the source). -/
def API_KEY : String := "86dd78dd-1b69-451c-a701-773312d7bfc8:fx"

/-- The fixed remote endpoint (`API_URL` in the source). -/
def API_URL : String := "https://api-free.deepl.com/v2/translate"

/-- Outcome of `requests.post(API_URL, data=params, timeout=10)` as seen by the
caller: either the request raised a `requests.exceptions.RequestException`
carrying a message (connection error, timeout, ...), or the endpoint responded.
A response carries its status code and reason, the decoded JSON body when
`response.json()` succeeds (`some data`), or `none` together with the decode
error's message when the body is malformed. -/
inductive HttpOutcome where
  | transportError (msg : String)
  | response (status : Nat) (reason : String) (jsonBody : Option Json) (jsonErrMsg : String)

/-- The message of the `requests.exceptions.HTTPError` raised by
`response.raise_for_status()` on a 4xx/5xx status. -/
def httpErrorDetail (status : Nat) (reason : String) : String :=
  toString status ++ (if status < 500 then " Client Error: " else " Server Error: ")
    ++ reason ++ " for url: " ++ API_URL

/-- The body of `translate_text` after a successful `response.json()`:
`if 'translations' in data and len(data['translations']) > 0: return
data['translations'][0]['text'] else: return "[Translation Error: Unexpected
API response format]"`, with any exception propagating to the handlers. -/
def translateCore (data : Json) : Except String Json :=
  match pyContains data "translations" with
  | .error e => .error e
  | .ok hasKey =>
    if hasKey then
      match pyIndexKey data "translations" with
      | .error e => .error e
      | .ok tr =>
        match pyLen tr with
        | .error e => .error e
        | .ok n =>
          if 0 < n then
            match pyIndexZero tr with
            | .error e => .error e
            | .ok first => pyIndexKey first "text"
          else .ok (.str "[Translation Error: Unexpected API response format]")
    else .ok (.str "[Translation Error: Unexpected API response format]")

/-- `translate_text(text, target_language)` of the source, with the network
interaction abstracted into an `HttpOutcome` argument.  The result is the
Python return value (any JSON value on the success path; the error paths of the
source return strings).  The `except requests.exceptions.RequestException`
handler yields `"[Translation Error: " + str(e) + "]"`; the `except Exception`
handler (reached by JSON decode errors and by the type errors of the body)
yields `"[Error: " + str(e) + "]"`.  No exception escapes: the function is
total. -/
def translate_text (text target_language : String) (outcome : HttpOutcome) : Json :=
  if API_KEY = "" then .str "[Translation Error: API key not configured.]"
  else
    match outcome with
    | .transportError msg => .str ("[Translation Error: " ++ msg ++ "]")
    | .response status reason jsonBody jsonErrMsg =>
      if 400 ≤ status ∧ status < 600 then
        .str ("[Translation Error: " ++ httpErrorDetail status reason ++ "]")
      else
        match jsonBody with
        | none => .str ("[Error: " ++ jsonErrMsg ++ "]")
        | some data =>
          match translateCore data with
          | .ok v => v
          | .error e => .str ("[Error: " ++ e ++ "]")

/-- The condition of claim C1 on a response body: `none` models a body
`response.json()` rejects; otherwise the decoded value holds no nonempty list
of translation candidates under the key `"translations"`. -/
def malformedOrNoCandidates (jsonBody : Option Json) : Bool :=
  match jsonBody with
  | none => true
  | some data =>
    match data with
    | .obj kvs =>
      match kvs.lookup "translations" with
      | some (.arr (_ :: _)) => false
      | _ => true
    | _ => true

/-- A Python value that is a string beginning with one of the two fixed error
markers of `translate_text`. -/
def beginsWithErrorMarker (j : Json) : Prop :=
  ∃ rest, j = .str ("[Translation Error: " ++ rest) ∨ j = .str ("[Error: " ++ rest)

/-- Python `str.lower()`, character by character, restricted to the characters
this development reasons about: ASCII letters and the accented Latin letters of
the table below get their real (UnicodeData) lowercase mapping; every character
not listed is left unchanged, as Python does for characters without a lowercase
mapping.  In particular U+1D400 MATHEMATICAL BOLD CAPITAL A has no lowercase
mapping in UnicodeData and is unchanged.  The list-valued codomain accommodates
Python's full case mappings (which may expand one character to several). -/
def pyLowerChar (c : Char) : List Char :=
  if 65 ≤ c.toNat ∧ c.toNat ≤ 90 then [Char.ofNat (c.toNat + 32)]
  else if c = 'À' then ['à'] else if c = 'Á' then ['á']
  else if c = 'É' then ['é'] else if c = 'È' then ['è']
  else if c = 'Í' then ['í'] else if c = 'Ó' then ['ó']
  else if c = 'Ú' then ['ú'] else if c = 'Ñ' then ['ñ']
  else if c = 'Ü' then ['ü'] else if c = 'Ç' then ['ç']
  else [c]

/-- The full compatibility (NFKD) decomposition of a character, per
UnicodeData, restricted to the characters this development reasons about: the
accented Latin letters below decompose into a base letter followed by a
combining mark, U+1D400 MATHEMATICAL BOLD CAPITAL A has compatibility
decomposition <font> U+0041 (uppercase A), and every character not listed
decomposes to itself.  `unicodedata.normalize('NFKD', t)` concatenates these
decompositions and then canonically reorders adjacent combining marks by
combining class; that reordering only permutes characters of nonzero combining
class, all of which `normalize_text` subsequently filters out, so it is omitted
here as it cannot affect any value computed below. -/
def nfkdChar (c : Char) : List Char :=
  if c = 'à' then ['a', '̀'] else if c = 'á' then ['a', '́']
  else if c = 'é' then ['e', '́'] else if c = 'è' then ['e', '̀']
  else if c = 'í' then ['i', '́'] else if c = 'ó' then ['o', '́']
  else if c = 'ú' then ['u', '́'] else if c = 'ñ' then ['n', '̃']
  else if c = 'ü' then ['u', '̈'] else if c = 'ç' then ['c', '̧']
  else if c = 'À' then ['A', '̀'] else if c = 'Á' then ['A', '́']
  else if c = 'É' then ['E', '́'] else if c = 'È' then ['E', '̀']
  else if c = 'Í' then ['I', '́'] else if c = 'Ó' then ['O', '́']
  else if c = 'Ú' then ['U', '́'] else if c = 'Ñ' then ['N', '̃']
  else if c = 'Ü' then ['U', '̈'] else if c = 'Ç' then ['C', '̧']
  else if c = Char.ofNat 0x1D400 then ['A']
  else [c]

/-- `unicodedata.combining(c)`: the canonical combining class of the character,
per UnicodeData for the combining marks the decompositions above produce, and 0
for every other character listed (base letters, ASCII, U+1D400). -/
def combiningClass (c : Char) : Nat :=
  if c = '̀' then 230 else if c = '́' then 230
  else if c = '̃' then 230 else if c = '̈' then 230
  else if c = '̧' then 202
  else 0

/-- The string core of `normalize_text`: lowercase the string, concatenate the
NFKD decompositions of its characters, and keep only the characters whose
combining class is zero (Python keeps `c` when `not unicodedata.combining(c)`,
i.e. when the class is 0). -/
def normalizeStr (s : String) : String :=
  String.mk ((((s.data.flatMap pyLowerChar).flatMap nfkdChar).filter
    (fun c => combiningClass c == 0)))

/-- `normalize_text(text)` of the source: `None` is passed through unchanged,
otherwise lowercase, NFKD-decompose, drop combining characters. -/
def normalize_text (text : Option String) : Option String :=
  match text with
  | none => none
  | some s => some (normalizeStr s)

/-- Outcome of `recognizer.listen(source, timeout=None, phrase_time_limit=None)`:
either a `sr.WaitTimeoutError` (no speech detected before the wait timed out)
or captured audio. -/
inductive ListenOutcome where
  | waitTimeout
  | captured

/-- Outcome of `recognizer.recognize_google(audio, language=language)` on the
captured audio: recognized text, `sr.UnknownValueError` (speech not understood),
or `sr.RequestError` (the remote recognition service failed). -/
inductive RecognitionOutcome where
  | recognized (text : String)
  | unknownValue
  | requestError (msg : String)

/-- `capture_user_voice(language)` of the source, with the microphone and the
remote recognizer abstracted into outcome arguments (the captured audio is used
only as the input of the single `recognize_google` call, so the recognizer's
outcome on it is passed directly).  Every handled exception path prints a
diagnostic and returns `None`; no exception escapes. -/
def capture_user_voice (language : String) (listen : ListenOutcome)
    (recog : RecognitionOutcome) : Option String :=
  match listen with
  | .waitTimeout => none
  | .captured =>
    match recog with
    | .recognized t => some t
    | .unknownValue => none
    | .requestError _ => none

/-- Environment of one `play_audio` call: which of its external interactions
fail.  `saveFails` covers `gTTS(...)`/`tts.save(...)` raising (synthesis or
file-write failure); `posix` is `os.name == 'posix'`; `pygameFails` covers any
of the pygame calls raising; `playsoundFails` covers `playsound.playsound`
raising; `fileExistsAtCleanup` is the value of `os.path.exists(temp_filename)`
in the `finally` block; `removeFails` covers `os.remove` raising. -/
structure PlayEnv where
  saveFails : Bool
  posix : Bool
  pygameFails : Bool
  playsoundFails : Bool
  fileExistsAtCleanup : Bool
  removeFails : Bool

/-- Observable events of one `play_audio` call, in order. -/
inductive PlayEvent : Type where
  | debugPrinted
  | savedAudio
  | playedMpg123
  | playedPygame
  | playedPlaysound
  | printedError (msg : String)
  | removedFile
deriving BEq

/-- Result of one `play_audio` call: the ordered event trace and whether an
exception escaped to the caller. -/
structure PlayResult where
  events : List PlayEvent
  raised : Bool

/-- `play_audio(text, language, debug)` of the source.  The `try` body
synthesizes and saves the audio, then plays it: `mpg123` via `os.system` on
posix; otherwise pygame, falling back on any pygame exception to `playsound`
inside a nested `try` whose handler only prints.  The outer `except Exception`
handler only prints.  The `finally` block, when the temp file exists, sleeps
and attempts `os.remove` inside a `try` whose handler only prints.  Hence
`raised` is `false` on every path. -/
def play_audio (text language : String) (debug : Bool) (env : PlayEnv) : PlayResult :=
  let debugEvents := if debug then [PlayEvent.debugPrinted] else []
  let tryEvents :=
    if env.saveFails then
      [PlayEvent.printedError "Error generating or playing audio"]
    else
      [PlayEvent.savedAudio] ++
        (if env.posix then [PlayEvent.playedMpg123]
         else if env.pygameFails then
           [PlayEvent.printedError "Pygame error"] ++
             (if env.playsoundFails then
               [PlayEvent.printedError "Audio playback error"]
              else [PlayEvent.playedPlaysound])
         else [PlayEvent.playedPygame])
  let cleanupEvents :=
    if env.fileExistsAtCleanup then
      if env.removeFails then [PlayEvent.printedError "Error removing temp file"]
      else [PlayEvent.removedFile]
    else []
  { events := debugEvents ++ tryEvents ++ cleanupEvents, raised := false }

/-- The background thread spawned by the wrapper: running it yields the list of
arguments with which the completion callback was invoked, in order. -/
structure SpawnedThread (β : Type) where
  run : Unit → List β

/-- `run_in_thread(callback)` of the source applied to a function `f`, yielding
the wrapper.  Invoking the wrapper on an argument returns `None` to the caller
(no handle, no result) and starts one background thread; `hasCallback` records
whether a callback was supplied to `run_in_thread`.  With a callback, the
thread body computes `result = func(*args)` and calls `callback(result)` once;
without one it runs `func` and discards the result, invoking no callback. -/
def run_in_thread_wrapper {α β : Type} (hasCallback : Bool) (f : α → β) (a : α) :
    Option β × SpawnedThread β :=
  (none, ⟨fun _ => if hasCallback then [f a] else []⟩)

/-- A character unaffected by any stage of normalization: lowercasing and NFKD
decomposition both leave it alone.  All lowercase ASCII characters qualify. -/
def normalInert (c : Char) : Bool := (pyLowerChar c == [c]) && (nfkdChar c == [c])

/-- The one-character string holding U+1D400 MATHEMATICAL BOLD CAPITAL A. -/
def mathBoldA : String := String.mk [Char.ofNat 0x1D400]

theorem flatMap_eq_self {α : Type} (f : α → List α) (l : List α)
    (h : ∀ c ∈ l, f c = [c]) : l.flatMap f = l := by
  induction l with
  | nil => rfl
  | cons c t ih =>
    have hc := h c (List.mem_cons_self c t)
    have ht := ih (fun x hx => h x (List.mem_cons_of_mem c hx))
    simp [List.flatMap_cons, hc, ht]

theorem normalInert_spec (c : Char) (h : normalInert c = true) :
    pyLowerChar c = [c] ∧ nfkdChar c = [c] := by
  simpa [normalInert, Bool.and_eq_true, beq_iff_eq] using h

theorem normalizeStr_data_combining (s : String) :
    ∀ c ∈ (normalizeStr s).data, (combiningClass c == 0) = true := by
  intro c hc
  have hc' : c ∈ (((s.data.flatMap pyLowerChar).flatMap nfkdChar).filter
      (fun c => combiningClass c == 0)) := hc
  exact (List.mem_filter.mp hc').2

/-- Claim C8: `normalize_text` applied to an absent input (`None`) returns that
absent input unchanged (`None`), rather than a string or an exception. -/
theorem normalize_text_none_passthrough : normalize_text none = none := rfl

/-- Claim C9: `normalize_text` is case- and accent-insensitive on the given
example: `normalize_text("Café")` and `normalize_text("cafe")` both equal
`"cafe"`. -/
theorem normalize_text_cafe_insensitive :
    normalize_text (some "Café") = some "cafe" ∧
      normalize_text (some "cafe") = some "cafe" := by
  exact ⟨by decide, by decide⟩

/-- Claim C2, counterexample: `normalize_text` is not idempotent.  On the
one-character string U+1D400 MATHEMATICAL BOLD CAPITAL A (which `str.lower`
leaves unchanged, having no lowercase mapping, and whose NFKD decomposition is
the uppercase letter `A`), one application yields `"A"` and a second yields
`"a"`. -/
theorem normalize_text_not_idempotent_cex :
    normalize_text (normalize_text (some mathBoldA)) ≠ normalize_text (some mathBoldA) := by
  decide

/-- Claim C2, amended: `normalize_text` is idempotent on every string whose
normalized form consists of characters left unchanged by lowercasing and by
NFKD decomposition — in particular on every ASCII string, and on every string
whose normalization contains no uppercase letter arising from a compatibility
decomposition. -/
theorem normalize_text_idempotent_on_inert (s : String)
    (h : (normalizeStr s).data.all normalInert = true) :
    normalize_text (normalize_text (some s)) = normalize_text (some s) := by
  have hall := List.all_eq_true.mp h
  show some (normalizeStr (normalizeStr s)) = some (normalizeStr s)
  congr 1
  have hlow : (normalizeStr s).data.flatMap pyLowerChar = (normalizeStr s).data :=
    flatMap_eq_self _ _ (fun c hc => (normalInert_spec c (hall c hc)).1)
  have hdec : (normalizeStr s).data.flatMap nfkdChar = (normalizeStr s).data :=
    flatMap_eq_self _ _ (fun c hc => (normalInert_spec c (hall c hc)).2)
  have hfil : (normalizeStr s).data.filter (fun c => combiningClass c == 0)
      = (normalizeStr s).data :=
    List.filter_eq_self.mpr (normalizeStr_data_combining s)
  show String.mk ((((normalizeStr s).data.flatMap pyLowerChar).flatMap nfkdChar).filter
    (fun c => combiningClass c == 0)) = normalizeStr s
  rw [hlow, hdec, hfil]

/-- Witness for the amended claim C2 at the concrete input `"Café"`. -/
theorem normalize_text_idempotent_on_inert_witness :
    (normalizeStr "Café").data.all normalInert = true ∧
      normalize_text (normalize_text (some "Café")) = normalize_text (some "Café") :=
  ⟨by decide, normalize_text_idempotent_on_inert "Café" (by decide)⟩

/-- Claim C10: every character of the string returned by `normalize_text` has
Unicode combining class zero — the combining (diacritical-mark) characters are
all removed. -/
theorem normalize_text_no_combining (s t : String)
    (h : normalize_text (some s) = some t) :
    t.data.all (fun c => combiningClass c == 0) = true := by
  have ht : t = normalizeStr s := (Option.some.inj h).symm
  subst ht
  exact List.all_eq_true.mpr (normalizeStr_data_combining s)

/-- Witness for claim C10 at the concrete input `"Café"`. -/
theorem normalize_text_no_combining_witness :
    normalize_text (some "Café") = some "cafe" ∧
      ("cafe" : String).data.all (fun c => combiningClass c == 0) = true :=
  ⟨by decide, normalize_text_no_combining "Café" "cafe" (by decide)⟩

theorem translate_text_transport_eq (text target msg : String) :
    translate_text text target (.transportError msg)
      = .str ("[Translation Error: " ++ msg ++ "]") := by
  unfold translate_text
  rw [if_neg (by decide : ¬ (API_KEY = ""))]

theorem translate_text_response_eq (text target : String) (status : Nat)
    (reason jsonErrMsg : String) (jsonBody : Option Json) :
    translate_text text target (.response status reason jsonBody jsonErrMsg)
      = if 400 ≤ status ∧ status < 600 then
          .str ("[Translation Error: " ++ httpErrorDetail status reason ++ "]")
        else
          match jsonBody with
          | none => .str ("[Error: " ++ jsonErrMsg ++ "]")
          | some data =>
            match translateCore data with
            | .ok v => v
            | .error e => .str ("[Error: " ++ e ++ "]") := by
  unfold translate_text
  rw [if_neg (by decide : ¬ (API_KEY = ""))]

theorem translateCore_no_candidates (data : Json)
    (h : malformedOrNoCandidates (some data) = true) :
    (∃ e, translateCore data = .error e) ∨
      translateCore data = .ok (.str "[Translation Error: Unexpected API response format]") := by
  match data with
  | .null => exact Or.inl ⟨_, rfl⟩
  | .bool b => exact Or.inl ⟨_, rfl⟩
  | .num n => exact Or.inl ⟨_, rfl⟩
  | .str s =>
    by_cases hm : (s.data.tails.any (fun t => ("translations" : String).data.isPrefixOf t)) = true
    · exact Or.inl ⟨"string indices must be integers",
        by simp [translateCore, pyContains, pyIndexKey, hm]⟩
    · right
      simp only [Bool.not_eq_true] at hm
      simp [translateCore, pyContains, hm]
  | .arr xs =>
    by_cases hm : (xs.any (fun j => match j with | .str s => s == "translations" | _ => false)) = true
    · exact Or.inl ⟨"list indices must be integers or slices, not str",
        by simp [translateCore, pyContains, pyIndexKey, hm]⟩
    · right
      simp only [Bool.not_eq_true] at hm
      simp [translateCore, pyContains, hm]
  | .obj kvs =>
    match hlk : kvs.lookup "translations" with
    | none => right; simp [translateCore, pyContains, hlk, Except.bind]
    | some v =>
      have hnc : ∀ x xs, v ≠ .arr (x :: xs) := by
        intro x xs hv
        rw [malformedOrNoCandidates, hlk, hv] at h
        exact absurd h (by simp)
      match v with
      | .null => exact Or.inl ⟨"object has no len()",
          by simp [translateCore, pyContains, pyIndexKey, pyLen, hlk]⟩
      | .bool b => exact Or.inl ⟨"object has no len()",
          by simp [translateCore, pyContains, pyIndexKey, pyLen, hlk]⟩
      | .num n => exact Or.inl ⟨"object has no len()",
          by simp [translateCore, pyContains, pyIndexKey, pyLen, hlk]⟩
      | .arr [] => right; simp [translateCore, pyContains, pyIndexKey, pyLen, pyIndexZero, hlk]
      | .arr (x :: xs) => exact absurd rfl (hnc x xs)
      | .str s =>
        match hs : s.data with
        | [] =>
          right
          have hlen : s.length = 0 := by simp [String.length, hs]
          simp [translateCore, pyContains, pyIndexKey, pyLen, hlk, hlen]
        | c :: cs =>
          left
          have hlen : s.length = cs.length + 1 := by simp [String.length, hs]
          exact ⟨"string indices must be integers",
            by simp [translateCore, pyContains, pyIndexKey, pyLen, pyIndexZero, hlk, hlen, hs]⟩
      | .obj kvs2 =>
        match kvs2 with
        | [] => right; simp [translateCore, pyContains, pyIndexKey, pyLen, pyIndexZero, hlk]
        | p :: ps => exact Or.inl ⟨"KeyError: 0",
            by simp [translateCore, pyContains, pyIndexKey, pyLen, pyIndexZero, hlk]⟩

/-- Claim C1: for every input text and target-language tag, if the endpoint
responds but the body is malformed (the JSON decode fails) or decodes to a
value holding no nonempty list of translation candidates, `translate_text`
returns a string beginning with one of its fixed error markers
(`"[Translation Error: "` or `"[Error: "`), and — the model being a total
function — no exception propagates to the caller. -/
theorem translate_text_bad_body_error_marker (text target : String) (status : Nat)
    (reason jsonErrMsg : String) (jsonBody : Option Json)
    (h : malformedOrNoCandidates jsonBody = true) :
    beginsWithErrorMarker
      (translate_text text target (.response status reason jsonBody jsonErrMsg)) := by
  rw [translate_text_response_eq]
  by_cases hs : 400 ≤ status ∧ status < 600
  · rw [if_pos hs]
    exact ⟨httpErrorDetail status reason ++ "]",
      Or.inl (congrArg Json.str (String.append_assoc _ _ _))⟩
  · rw [if_neg hs]
    match jsonBody, h with
    | none, _ =>
      exact ⟨jsonErrMsg ++ "]", Or.inr (congrArg Json.str (String.append_assoc _ _ _))⟩
    | some data, h =>
      show beginsWithErrorMarker
        (match translateCore data with
         | .ok v => v
         | .error e => Json.str ("[Error: " ++ e ++ "]"))
      rcases translateCore_no_candidates data h with ⟨e, he⟩ | hok
      · rw [he]
        exact ⟨e ++ "]", Or.inr (congrArg Json.str (String.append_assoc _ _ _))⟩
      · rw [hok]
        exact ⟨"Unexpected API response format]", Or.inl (congrArg Json.str (by decide))⟩

/-- Witness for claim C1: a 200 response whose body fails to decode. -/
theorem translate_text_bad_body_error_marker_witness :
    malformedOrNoCandidates none = true ∧
      beginsWithErrorMarker
        (translate_text "Hello" "ES" (.response 200 "OK" none "Expecting value")) :=
  ⟨by decide, translate_text_bad_body_error_marker "Hello" "ES" 200 "OK" "Expecting value" none (by decide)⟩

/-- Claim C4: a transport failure yields
`"[Translation Error: " + str(e) + "]"` — beginning with the fixed marker and
containing the failure detail `msg` — and a non-success (4xx/5xx) status yields
the same marker followed by the `HTTPError` detail (status code, reason and
URL).  Both are returned values of the total model: no exception escapes. -/
theorem translate_text_failure_marker_detail (text target msg : String) (status : Nat)
    (reason jsonErrMsg : String) (jsonBody : Option Json)
    (h : 400 ≤ status ∧ status < 600) :
    translate_text text target (.transportError msg)
        = .str ("[Translation Error: " ++ msg ++ "]")
      ∧ translate_text text target (.response status reason jsonBody jsonErrMsg)
        = .str ("[Translation Error: " ++ httpErrorDetail status reason ++ "]") := by
  constructor
  · exact translate_text_transport_eq text target msg
  · rw [translate_text_response_eq, if_pos h]

/-- Witness for claim C4: a connection failure and a 503 response. -/
theorem translate_text_failure_marker_detail_witness :
    (400 ≤ 503 ∧ 503 < 600) ∧
      translate_text "Hello" "ES" (.transportError "Connection refused")
          = .str ("[Translation Error: " ++ "Connection refused" ++ "]")
        ∧ translate_text "Hello" "ES" (.response 503 "Service Unavailable" none "")
          = .str ("[Translation Error: " ++ httpErrorDetail 503 "Service Unavailable" ++ "]") :=
  ⟨by decide, translate_text_failure_marker_detail "Hello" "ES" "Connection refused" 503
    "Service Unavailable" "" none (by decide)⟩

/-- Claim C5: when the endpoint returns a success status and the decoded body
is an object whose `"translations"` key holds a nonempty list whose first
element is an object with a `"text"` key, `translate_text` returns that first
candidate's text. -/
theorem translate_text_first_candidate (text target : String) (status : Nat)
    (reason jsonErrMsg : String) (kvs fkvs : List (String × Json)) (rest : List Json) (t : Json)
    (hstatus : ¬ (400 ≤ status ∧ status < 600))
    (htr : kvs.lookup "translations" = some (.arr (Json.obj fkvs :: rest)))
    (htext : fkvs.lookup "text" = some t) :
    translate_text text target (.response status reason (some (.obj kvs)) jsonErrMsg) = t := by
  rw [translate_text_response_eq, if_neg hstatus]
  simp [translateCore, pyContains, pyIndexKey, pyLen, pyIndexZero, htr, htext]

/-- Witness for claim C5: a 200 response with one candidate `"hola"`. -/
theorem translate_text_first_candidate_witness :
    translate_text "Hello" "ES"
        (.response 200 "OK"
          (some (.obj [("translations", .arr [.obj [("text", .str "hola")]])])) "")
      = .str "hola" :=
  translate_text_first_candidate "Hello" "ES" 200 "OK" ""
    [("translations", .arr [.obj [("text", .str "hola")]])] [("text", .str "hola")] []
    (.str "hola") (by decide) rfl rfl

/-- Claim C3: invoking the wrapped function hands the caller back `none` — no
join handle and no result, for every wrapped function and argument, so the
caller-visible value is independent of the wrapped call — while the single
spawned background thread, when it runs, invokes the supplied callback exactly
once with the wrapped function's return value (and invokes no callback when
none was supplied). -/
theorem run_in_thread_fire_and_forget {α β : Type} (f : α → β) (a : α) :
    (run_in_thread_wrapper true f a).1 = none
      ∧ (run_in_thread_wrapper true f a).2.run () = [f a]
      ∧ (run_in_thread_wrapper false f a).1 = none
      ∧ (run_in_thread_wrapper false f a).2.run () = [] :=
  ⟨rfl, rfl, rfl, rfl⟩

/-- Claim C6: `capture_user_voice` returns `None` in each of the three failure
cases — listening timed out before speech was detected, speech was captured but
the recognizer did not understand it, and the remote recognition service
failed — and, the model being total, none of them raises to the caller. -/
theorem capture_user_voice_failures_none (language msg : String) (r : RecognitionOutcome) :
    capture_user_voice language .waitTimeout r = none
      ∧ capture_user_voice language .captured .unknownValue = none
      ∧ capture_user_voice language .captured (.requestError msg) = none :=
  ⟨rfl, rfl, rfl⟩

/-- Claim C7: `play_audio` never lets an error escape to the caller, attempts
to remove the transient audio file exactly when it exists at cleanup time
(whatever the outcome of synthesis and playback), removes it exactly when that
attempt does not fail, and converts a failed removal into a printed diagnostic
— for every combination of synthesis, playback, and filesystem failures. -/
theorem play_audio_cleanup_no_raise (text language : String) (debug : Bool) (env : PlayEnv) :
    (play_audio text language debug env).raised = false
      ∧ ((play_audio text language debug env).events.count PlayEvent.removedFile
          = if env.fileExistsAtCleanup && !env.removeFails then 1 else 0)
      ∧ ((play_audio text language debug env).events.count
            (PlayEvent.printedError "Error removing temp file")
          = if env.fileExistsAtCleanup && env.removeFails then 1 else 0) := by
  obtain ⟨sf, po, pg, ps, ex, rm⟩ := env
  cases debug <;> cases sf <;> cases po <;> cases pg <;> cases ps <;> cases ex <;> cases rm <;>
    simp [play_audio, List.count_cons, List.count_nil] <;> decide

end LanguageService
